import Mathlib

/-!
Verification development for the `cardinal` smart-card toolkit.

Bytes are modelled as `Nat` (each in `0..=255` where it matters), byte slices as
`List Nat`.  Rust `Result`/nom `IResult` values become explicit sum types; a Rust
panic (out-of-bounds slice index, failed `assert!`) is modelled as a dedicated
`panicked` outcome, distinct from returned errors.
-/

set_option maxHeartbeats 1600000
set_option maxRecDepth 8000

namespace Cardinal

/-- nom error kinds that `src/ber.rs` can produce: the `complete` combinators
(`take`, `be_u8`) signal `ErrorKind::Eof` when the input is too short, and
`take_len` manufactures `ErrorKind::TooLarge` for oversized / indeterminate
extended lengths. -/
inductive BerErr
  | eof
  | tooLarge
deriving DecidableEq, Repr

/-- Outcome of a Rust computation that can return `Ok`, return a nom error, or
panic (e.g. an out-of-bounds slice index). -/
inductive PRes (α : Type)
  | ok (a : α)
  | err (e : BerErr)
  | panicked
deriving DecidableEq, Repr

namespace Ber

/-- `nom::bytes::complete::take(count)`: returns `(rest, taken)`, or
`ErrorKind::Eof` when fewer than `count` bytes remain. -/
def nomTake (count : Nat) (data : List Nat) : PRes (List Nat × List Nat) :=
  if count ≤ data.length then .ok (data.drop count, data.take count) else .err .eof

/-- Big-endian read of a byte sequence (byteorder `read_uint` / `read_u16` etc). -/
def be_uint (bytes : List Nat) : Nat := bytes.foldl (fun acc b => acc * 256 + b) 0

/-- `ber::take_tag` from `src/ber.rs`: one byte; if its low 5 bits are all set,
keep counting subsequent bytes while their high bit is set, then take that many
bytes of the original input. -/
def take_tag (data : List Nat) : PRes (List Nat × List Nat) :=
  match data with
  | [] => .err .eof
  | short :: rest =>
    if short &&& 0x1F != 0x1F then .ok (rest, [short])
    else
      let tagLen := 2 + (rest.takeWhile (fun b => b &&& 0x80 != 0)).length
      nomTake tagLen (short :: rest)

/-- `ber::take_len` from `src/ber.rs`.  A first byte `<= 127` is the length;
otherwise its low 7 bits give the count `n` of big-endian length bytes.
`n = 0` or `n > 8` is a `TooLarge` error.  Otherwise the source slices
`&data[lenlen..]` and calls `read_uint` without checking that `n` bytes are
present: on a shorter input this is an out-of-bounds panic, modelled as
`panicked`. -/
def take_len (data_ : List Nat) : PRes (List Nat × Nat) :=
  match data_ with
  | [] => .err .eof
  | lenlen :: data =>
    if lenlen ≤ 127 then .ok (data, lenlen)
    else
      let n := lenlen &&& 0x7F
      if n < 1 ∨ n > 8 then .err .tooLarge
      else if n ≤ data.length then .ok (data.drop n, be_uint (data.take n))
      else .panicked

/-- `ber::parse_next`: tag, then length, then exactly `length` value bytes. -/
def parse_next (data : List Nat) : PRes (List Nat × (List Nat × List Nat)) :=
  match take_tag data with
  | .err e => .err e
  | .panicked => .panicked
  | .ok (d1, tag) =>
    match take_len d1 with
    | .err e => .err e
    | .panicked => .panicked
    | .ok (d2, len) =>
      match nomTake len d2 with
      | .err e => .err e
      | .panicked => .panicked
      | .ok (d3, val) => .ok (d3, (tag, val))

/-- One step of `ber::Iter::next`: an `Ok` from `parse_next` is yielded together
with the advanced cursor, an `ErrorKind::Eof` error terminates the iterator
(`None`), and any other error is yielded as `Some(Err(..))`. -/
inductive IterStep
  | yielded (tag value rest : List Nat)
  | done
  | failed (e : BerErr)
  | panicked
deriving DecidableEq, Repr

def iterNext (data : List Nat) : IterStep :=
  match parse_next data with
  | .ok (rest, (tag, value)) => .yielded tag value rest
  | .err .eof => .done
  | .err e => .failed e
  | .panicked => .panicked

/-- `ber::tag_to_u32`: tags of 0..=4 bytes become a big-endian integer; longer
tags panic (modelled as `none`). -/
def tag_to_u32 (tag : List Nat) : Option Nat :=
  if tag.length ≤ 4 then some (be_uint tag) else none

/-- Overwriting write of `src` into `buf` at offset `off` (the semantics of a
bounds-checked scroll `pwrite`/`gwrite` once in bounds). -/
def bufWrite (buf : List Nat) (off : Nat) (src : List Nat) : List Nat :=
  buf.take off ++ src ++ buf.drop (off + src.length)

/-- The extended length bytes scroll writes for `TV::try_into_ctx`.  scroll's
default context is the host's native endianness; they are modelled
little-endian (the common host).  Every successful run of the writer
overwrites these bytes with the value (see `tv_try_into_ctx`), so this choice
is unobservable in the writer's output. -/
def scrollBytes (lenlen v : Nat) : List Nat :=
  (List.range lenlen).map (fun i => v / 256 ^ i % 256)

/-- `TV::try_into_ctx` from `src/ber.rs`, writing into `buf` and returning the
written buffer and the final offset.  Faithful detail: in the extended-length
branch the source writes the length bytes with `pwrite` at `offset + 1` and the
`0x80 | N` marker at `offset` but never advances `offset`, so the subsequent
`gwrite` of the value starts at the marker's position and overwrites the whole
length field. -/
def tv_try_into_ctx (tag value buf : List Nat) : Option (List Nat × Nat) :=
  if tag.length ≤ buf.length then
    let buf1 := bufWrite buf 0 tag
    let off1 := tag.length
    let len := value.length
    if len ≤ 0x7F then
      if off1 + 1 ≤ buf1.length then
        let buf2 := bufWrite buf1 off1 [len]
        if off1 + 1 + len ≤ buf2.length then
          some (bufWrite buf2 (off1 + 1) value, off1 + 1 + len)
        else none
      else none
    else
      let lenlen : Nat :=
        if len ≤ 0xFF then 1
        else if len ≤ 0xFFFF then 2
        else if len ≤ 0xFFFFFFFF then 4
        else 8
      if off1 + 1 + lenlen ≤ buf1.length then
        let buf2 := bufWrite buf1 (off1 + 1) (scrollBytes lenlen len)
        let buf3 := bufWrite buf2 off1 [0x80 ||| lenlen]
        if off1 + len ≤ buf3.length then
          some (bufWrite buf3 off1 value, off1 + len)
        else none
      else none
  else none

/-- Serialising a `TV` into a fresh, sufficiently large zeroed buffer and
keeping the `offset`-byte prefix the writer reports, i.e. the bytes a caller
such as `buf.pwrite(TV(tag, value), 0)` ends up using. -/
def serialize_tv (tag value : List Nat) : Option (List Nat) :=
  (tv_try_into_ctx tag value (List.replicate (tag.length + value.length + 9) 0)).map
    (fun r => r.1.take r.2)

end Ber

namespace OldApdu

/-- The `Status` sum type of `old/src/apdu.rs` (the draft carrying the full
SW1/SW2 classification with `from_u16`/`as_u16`). -/
inductive Status
  | OK
  | Warning (x : Nat)
  | BytesRemaining (x : Nat)
  | CardQuery (x : Nat)
  | ReturnDataMayBeCorrupted
  | EOF
  | SelectedFileDeactivated
  | BadFileOrDataControlInformation
  | SelectedFileInTerminationState
  | NoSensorInput
  | DeactivatedReference
  | UnsuccessfulComparison
  | FullByLastWrite
  | Counter (x : Nat)
  | ErrError (x : Nat)
  | ErrImmediateResponseRequired
  | ErrCardQuery (x : Nat)
  | ErrChannelShareAccessDenied
  | ErrChannelOpenAccessDenied
  | ErrMemoryFailure
  | ErrSecurity (x : Nat)
  | ErrMalformedAPDU
  | ErrInvalidLc
  | ErrChannelUnsupported
  | ErrSecureMessagingUnsupported
  | ErrChainLastCommandExpected
  | ErrChainUnsupported
  | ErrIncompatibleFileStructure
  | ErrSecurityStatus
  | ErrAuthMethodBlocked
  | ErrRefDataUnusable
  | ErrConditionsNotSatisfied
  | ErrNoCurrentEF
  | ErrExpectedSecureMessagingDOs
  | ErrIncorrectSecureMessagingDOs
  | ErrCommandData
  | ErrFunctionNotSupported
  | ErrFileOrApplicationNotFound
  | ErrRecordNotFound
  | ErrNotEnoughSpace
  | ErrNcTLVStructure
  | ErrP1P2 (x y : Nat)
  | ErrNcP1P2
  | ErrRefNotFound
  | ErrFileAlreadyExists
  | ErrDFAlreadyExists
  | ErrParamsP1P2
  | ErrRetryWithLe (x : Nat)
  | ErrInstruction
  | ErrClass
  | ErrNoIdea
  | Unknown (x y : Nat)
deriving Repr

namespace Status

/-- The `(0x90, _)` arms of `Status::from` in `old/src/apdu.rs`:
`0x9000` is `OK`, any other `0x90XX` falls through to `Unknown`. -/
def from_90 (y : Nat) : Status :=
  if y = 0x00 then .OK else .Unknown 0x90 y

/-- The `(0x62, _)` arms of `Status::from` in `old/src/apdu.rs`
(`0x02...0x80` is an inclusive Rust range). -/
def from_62 (y : Nat) : Status :=
  if y = 0x00 then .Warning 0x62
  else if 0x02 ≤ y ∧ y ≤ 0x80 then .CardQuery y
  else if y = 0x81 then .ReturnDataMayBeCorrupted
  else if y = 0x82 then .EOF
  else if y = 0x83 then .SelectedFileDeactivated
  else if y = 0x84 then .BadFileOrDataControlInformation
  else if y = 0x85 then .SelectedFileInTerminationState
  else if y = 0x86 then .NoSensorInput
  else if y = 0x87 then .DeactivatedReference
  else .Unknown 0x62 y

/-- The `(0x63, _)` arms of `Status::from`. -/
def from_63 (y : Nat) : Status :=
  if y = 0x00 then .Warning 0x63
  else if y = 0x40 then .UnsuccessfulComparison
  else if y = 0x81 then .FullByLastWrite
  else if 0xC0 ≤ y ∧ y ≤ 0xCF then .Counter (y - 0xC0)
  else .Unknown 0x63 y

/-- The `(0x64, _)` arms of `Status::from`. -/
def from_64 (y : Nat) : Status :=
  if y = 0x00 then .Warning 0x64
  else if y = 0x01 then .ErrImmediateResponseRequired
  else if 0x02 ≤ y ∧ y ≤ 0x80 then .ErrCardQuery y
  else if y = 0x81 then .ErrChannelShareAccessDenied
  else if y = 0x82 then .ErrChannelOpenAccessDenied
  else .Unknown 0x64 y

/-- The `(0x65, _)` arms of `Status::from`. -/
def from_65 (y : Nat) : Status :=
  if y = 0x00 then .ErrError 0x65
  else if y = 0x81 then .ErrMemoryFailure
  else .Unknown 0x65 y

/-- The `(0x67, _)` arms of `Status::from`. -/
def from_67 (y : Nat) : Status :=
  if y = 0x00 then .ErrError 0x67
  else if y = 0x01 then .ErrMalformedAPDU
  else if y = 0x02 then .ErrInvalidLc
  else .Unknown 0x67 y

/-- The `(0x68, _)` arms of `Status::from`. -/
def from_68 (y : Nat) : Status :=
  if y = 0x00 then .ErrError 0x68
  else if y = 0x81 then .ErrChannelUnsupported
  else if y = 0x82 then .ErrSecureMessagingUnsupported
  else if y = 0x83 then .ErrChainLastCommandExpected
  else if y = 0x84 then .ErrChainUnsupported
  else .Unknown 0x68 y

/-- The `(0x69, _)` arms of `Status::from`. -/
def from_69 (y : Nat) : Status :=
  if y = 0x00 then .ErrError 0x69
  else if y = 0x81 then .ErrIncompatibleFileStructure
  else if y = 0x82 then .ErrSecurityStatus
  else if y = 0x83 then .ErrAuthMethodBlocked
  else if y = 0x84 then .ErrRefDataUnusable
  else if y = 0x85 then .ErrConditionsNotSatisfied
  else if y = 0x86 then .ErrNoCurrentEF
  else if y = 0x87 then .ErrExpectedSecureMessagingDOs
  else if y = 0x88 then .ErrIncorrectSecureMessagingDOs
  else .Unknown 0x69 y

/-- The `(0x6A, _)` arms of `Status::from`. -/
def from_6A (y : Nat) : Status :=
  if y = 0x00 then .ErrError 0x6A
  else if y = 0x80 then .ErrCommandData
  else if y = 0x81 then .ErrFunctionNotSupported
  else if y = 0x82 then .ErrFileOrApplicationNotFound
  else if y = 0x83 then .ErrRecordNotFound
  else if y = 0x84 then .ErrNotEnoughSpace
  else if y = 0x85 then .ErrNcTLVStructure
  else if y = 0x86 then .ErrP1P2 0x6A 0x86
  else if y = 0x87 then .ErrNcP1P2
  else if y = 0x88 then .ErrRefNotFound
  else if y = 0x89 then .ErrFileAlreadyExists
  else if y = 0x8A then .ErrDFAlreadyExists
  else .Unknown 0x6A y

/-- The `(0x6B, _)` arms of `Status::from`. -/
def from_6B (y : Nat) : Status :=
  if y = 0x00 then .ErrP1P2 0x6B 0x00 else .Unknown 0x6B y

/-- The `(0x6D, _)` arms of `Status::from`. -/
def from_6D (y : Nat) : Status :=
  if y = 0x00 then .ErrInstruction else .Unknown 0x6D y

/-- The `(0x6E, _)` arms of `Status::from`. -/
def from_6E (y : Nat) : Status :=
  if y = 0x00 then .ErrClass else .Unknown 0x6E y

/-- The `(0x6F, _)` arms of `Status::from`. -/
def from_6F (y : Nat) : Status :=
  if y = 0x00 then .ErrNoIdea else .Unknown 0x6F y

/-- `Status::from(x, y)` of `old/src/apdu.rs`: the match arms are translated
grouped by the SW1 byte (the arms of the Rust `match` are pairwise disjoint,
so grouping preserves the mapping exactly; the `(0x66, _)` block of the source
is commented out there — RFU — and falls through to `Unknown`). -/
def from_sw (x y : Nat) : Status :=
  if x = 0x90 then from_90 y
  else if x = 0x61 then .BytesRemaining y
  else if x = 0x62 then from_62 y
  else if x = 0x63 then from_63 y
  else if x = 0x64 then from_64 y
  else if x = 0x65 then from_65 y
  else if x = 0x67 then from_67 y
  else if x = 0x68 then from_68 y
  else if x = 0x69 then from_69 y
  else if x = 0x6A then from_6A y
  else if x = 0x6B then from_6B y
  else if x = 0x6C then .ErrRetryWithLe y
  else if x = 0x6D then from_6D y
  else if x = 0x6E then from_6E y
  else if x = 0x6F then from_6F y
  else .Unknown x y

/-- `Status::as_tuple` of `old/src/apdu.rs`. -/
def as_tuple : Status → Nat × Nat
  | .OK => (0x90, 0x00)
  | .Warning x => (x, 0x00)
  | .BytesRemaining x => (0x61, x)
  | .CardQuery x => (0x62, x)
  | .ReturnDataMayBeCorrupted => (0x62, 0x81)
  | .EOF => (0x62, 0x82)
  | .SelectedFileDeactivated => (0x62, 0x83)
  | .BadFileOrDataControlInformation => (0x62, 0x84)
  | .SelectedFileInTerminationState => (0x62, 0x85)
  | .NoSensorInput => (0x62, 0x86)
  | .DeactivatedReference => (0x62, 0x87)
  | .UnsuccessfulComparison => (0x63, 0x40)
  | .FullByLastWrite => (0x63, 0x81)
  | .Counter x => (0x63, 0xC0 + x)
  | .ErrError x => (x, 0x00)
  | .ErrImmediateResponseRequired => (0x64, 0x01)
  | .ErrCardQuery x => (0x64, x)
  | .ErrChannelShareAccessDenied => (0x64, 0x81)
  | .ErrChannelOpenAccessDenied => (0x64, 0x82)
  | .ErrMemoryFailure => (0x65, 0x81)
  | .ErrSecurity x => (0x66, x)
  | .ErrMalformedAPDU => (0x67, 0x01)
  | .ErrInvalidLc => (0x67, 0x02)
  | .ErrChannelUnsupported => (0x68, 0x81)
  | .ErrSecureMessagingUnsupported => (0x68, 0x82)
  | .ErrChainLastCommandExpected => (0x68, 0x83)
  | .ErrChainUnsupported => (0x68, 0x84)
  | .ErrIncompatibleFileStructure => (0x69, 0x81)
  | .ErrSecurityStatus => (0x69, 0x82)
  | .ErrAuthMethodBlocked => (0x69, 0x83)
  | .ErrRefDataUnusable => (0x69, 0x84)
  | .ErrConditionsNotSatisfied => (0x69, 0x85)
  | .ErrNoCurrentEF => (0x69, 0x86)
  | .ErrExpectedSecureMessagingDOs => (0x69, 0x87)
  | .ErrIncorrectSecureMessagingDOs => (0x69, 0x88)
  | .ErrCommandData => (0x6A, 0x80)
  | .ErrFunctionNotSupported => (0x6A, 0x81)
  | .ErrFileOrApplicationNotFound => (0x6A, 0x82)
  | .ErrRecordNotFound => (0x6A, 0x83)
  | .ErrNotEnoughSpace => (0x6A, 0x84)
  | .ErrNcTLVStructure => (0x6A, 0x85)
  | .ErrP1P2 x y => (x, y)
  | .ErrNcP1P2 => (0x6A, 0x87)
  | .ErrRefNotFound => (0x6A, 0x88)
  | .ErrFileAlreadyExists => (0x6A, 0x89)
  | .ErrDFAlreadyExists => (0x6A, 0x8A)
  | .ErrParamsP1P2 => (0x6B, 0x00)
  | .ErrRetryWithLe x => (0x6C, x)
  | .ErrInstruction => (0x6D, 0x00)
  | .ErrClass => (0x6E, 0x00)
  | .ErrNoIdea => (0x6F, 0x00)
  | .Unknown x y => (x, y)

/-- `Status::from_u16`: split a `u16` into big-endian bytes and classify. -/
def from_u16 (xy : Nat) : Status := from_sw (xy % 65536 / 256) (xy % 256)

/-- `Status::as_u16`: reassemble the tuple big-endian. -/
def as_u16 (s : Status) : Nat := (as_tuple s).1 * 256 + (as_tuple s).2

theorem as_tuple_from_90 (y : Nat) : as_tuple (from_90 y) = (0x90, y) := by
  delta from_90
  split_ifs <;> simp_all [as_tuple]

theorem as_tuple_from_62 (y : Nat) : as_tuple (from_62 y) = (0x62, y) := by
  delta from_62
  split_ifs <;> simp_all [as_tuple]

theorem as_tuple_from_63 (y : Nat) : as_tuple (from_63 y) = (0x63, y) := by
  delta from_63
  split_ifs <;> simp_all [as_tuple]

theorem as_tuple_from_64 (y : Nat) : as_tuple (from_64 y) = (0x64, y) := by
  delta from_64
  split_ifs <;> simp_all [as_tuple]

theorem as_tuple_from_65 (y : Nat) : as_tuple (from_65 y) = (0x65, y) := by
  delta from_65
  split_ifs <;> simp_all [as_tuple]

theorem as_tuple_from_67 (y : Nat) : as_tuple (from_67 y) = (0x67, y) := by
  delta from_67
  split_ifs <;> simp_all [as_tuple]

theorem as_tuple_from_68 (y : Nat) : as_tuple (from_68 y) = (0x68, y) := by
  delta from_68
  split_ifs <;> simp_all [as_tuple]

theorem as_tuple_from_69 (y : Nat) : as_tuple (from_69 y) = (0x69, y) := by
  delta from_69
  split_ifs <;> simp_all [as_tuple]

theorem as_tuple_from_6A (y : Nat) : as_tuple (from_6A y) = (0x6A, y) := by
  delta from_6A
  split_ifs <;> simp_all [as_tuple]

theorem as_tuple_from_6B (y : Nat) : as_tuple (from_6B y) = (0x6B, y) := by
  delta from_6B
  split_ifs <;> simp_all [as_tuple]

theorem as_tuple_from_6D (y : Nat) : as_tuple (from_6D y) = (0x6D, y) := by
  delta from_6D
  split_ifs <;> simp_all [as_tuple]

theorem as_tuple_from_6E (y : Nat) : as_tuple (from_6E y) = (0x6E, y) := by
  delta from_6E
  split_ifs <;> simp_all [as_tuple]

theorem as_tuple_from_6F (y : Nat) : as_tuple (from_6F y) = (0x6F, y) := by
  delta from_6F
  split_ifs <;> simp_all [as_tuple]

/-- Every branch of the old draft's classification encodes back to the very
pair it was built from: `as_tuple (from(x, y)) = (x, y)` for all `x`, `y`. -/
theorem as_tuple_from_sw (x y : Nat) : as_tuple (from_sw x y) = (x, y) := by
  delta from_sw
  by_cases h1 : x = 0x90
  · subst h1; exact as_tuple_from_90 y
  rw [if_neg h1]
  by_cases h2 : x = 0x61
  · subst h2; rfl
  rw [if_neg h2]
  by_cases h3 : x = 0x62
  · subst h3; exact as_tuple_from_62 y
  rw [if_neg h3]
  by_cases h4 : x = 0x63
  · subst h4; exact as_tuple_from_63 y
  rw [if_neg h4]
  by_cases h5 : x = 0x64
  · subst h5; exact as_tuple_from_64 y
  rw [if_neg h5]
  by_cases h6 : x = 0x65
  · subst h6; exact as_tuple_from_65 y
  rw [if_neg h6]
  by_cases h7 : x = 0x67
  · subst h7; exact as_tuple_from_67 y
  rw [if_neg h7]
  by_cases h8 : x = 0x68
  · subst h8; exact as_tuple_from_68 y
  rw [if_neg h8]
  by_cases h9 : x = 0x69
  · subst h9; exact as_tuple_from_69 y
  rw [if_neg h9]
  by_cases h10 : x = 0x6A
  · subst h10; exact as_tuple_from_6A y
  rw [if_neg h10]
  by_cases h11 : x = 0x6B
  · subst h11; exact as_tuple_from_6B y
  rw [if_neg h11]
  by_cases h12 : x = 0x6C
  · subst h12; rfl
  rw [if_neg h12]
  by_cases h13 : x = 0x6D
  · subst h13; exact as_tuple_from_6D y
  rw [if_neg h13]
  by_cases h14 : x = 0x6E
  · subst h14; exact as_tuple_from_6E y
  rw [if_neg h14]
  by_cases h15 : x = 0x6F
  · subst h15; exact as_tuple_from_6F y
  rw [if_neg h15]
  rfl

end Status

end OldApdu

namespace Lib

/-- The `Status` enum of `src/lib.rs` (the draft whose `Card::exec` drives the
record iterator of `src/iso7816/read_record.rs`). -/
inductive Status
  | OK
  | GetResponse (xx : Nat)
  | RetryWithLe (xx : Nat)
  | SelectionInvalidated
  | AuthenticationFailed
  | Counter (xx : Nat)
  | AuthMethodBlocked
  | DataInvalidated
  | ConditionsOfUse
  | FunctionNotSupported
  | FileNotFound
  | RecordNotFound
  | WrongP1P2
  | DataNotFound
  | Unknown (x y : Nat)
deriving DecidableEq, Repr

/-- `Status::from(sw1, sw2)` of `src/lib.rs` (lines 119-143).  Note that this
draft has no arm producing `SelectionInvalidated` or `AuthenticationFailed`
(their SW pairs fall through to `Unknown`), and its `Counter` carries the raw
second byte `0xC0..=0xCF`, not the 0-15 counter. -/
def Status.from_sw (sw1 sw2 : Nat) : Status :=
  if sw1 = 0x90 ∧ sw2 = 0x00 then .OK
  else if sw1 = 0x61 then .GetResponse sw2
  else if sw1 = 0x6C then .RetryWithLe sw2
  else if sw1 = 0x63 then (if sw2 < 0xC0 then .Unknown 0x63 sw2 else .Counter sw2)
  else if sw1 = 0x69 ∧ sw2 = 0x83 then .AuthMethodBlocked
  else if sw1 = 0x69 ∧ sw2 = 0x84 then .DataInvalidated
  else if sw1 = 0x69 ∧ sw2 = 0x85 then .ConditionsOfUse
  else if sw1 = 0x6A ∧ sw2 = 0x81 then .FunctionNotSupported
  else if sw1 = 0x6A ∧ sw2 = 0x82 then .FileNotFound
  else if sw1 = 0x6A ∧ sw2 = 0x83 then .RecordNotFound
  else if sw1 = 0x6A ∧ sw2 = 0x86 then .WrongP1P2
  else if sw1 = 0x6A ∧ sw2 = 0x88 then .DataNotFound
  else .Unknown sw1 sw2

/-- The `APDU` struct of `src/lib.rs` (`le = 0` means 256 by convention and is
the `Default`). -/
structure APDU where
  cla : Nat
  ins : Nat
  p1 : Nat
  p2 : Nat
  data : List Nat
  le : Nat
deriving DecidableEq, Repr

/-- `APDU::new`: `le` starts out 0. -/
def APDU.new (cla ins p1 p2 : Nat) (data : List Nat) : APDU :=
  { cla := cla, ins := ins, p1 := p1, p2 := p2, data := data, le := 0 }

/-- `APDU::expect`. -/
def APDU.expect (a : APDU) (le : Nat) : APDU := { a with le := le }

/-- The `RAPDU` struct of `src/lib.rs`. -/
structure RAPDU where
  data : List Nat
  sw : Status
deriving DecidableEq, Repr

/-- Errors `Card::exec` can produce, as far as the model needs them: a
non-OK, non-procedural status becomes `ErrorKind::APDU(status)`; a scripted
transport that has run out of responses is a transport error. -/
inductive ExecErr
  | apdu (s : Status)
  | transport
deriving DecidableEq, Repr

/-- Modelled from the spec: `src/lib.rs` line 163 builds the GET RESPONSE
command via `iso7816::GetResponse::new(xx)`, but no `GetResponse` exists
under `src/src/iso7816/`; per spec §6 GET RESPONSE is INS `0xC0` with
`Le = xx` (and `cmd.rs`-style requests default `CLA`, P1, P2 and data
to zero). -/
def getResponseAPDU (xx : Nat) : APDU :=
  { cla := 0x00, ins := 0xC0, p1 := 0x00, p2 := 0x00, data := [], le := xx }

/-- `Card::exec` of `src/lib.rs` run against a scripted transport: the script
is the list of `RAPDU`s successive `exec_impl` calls return, consumed one per
transport call.  Returns the logical result plus the unconsumed script (so
that the number of transport calls is observable). -/
def exec (req : APDU) : List RAPDU → Except ExecErr RAPDU × List RAPDU
  | [] => (.error .transport, [])
  | r :: rest =>
    match r.sw with
    | .OK => (.ok r, rest)
    | .GetResponse xx => exec (getResponseAPDU xx) rest
    | .RetryWithLe xx => exec (req.expect xx) rest
    | s => (.error (.apdu s), rest)

end Lib

namespace Iso7816

open Lib

/-- `ReadRecord::num(sfi, num)` converted `Into<APDU>`
(`src/iso7816/read_record.rs`): `00 B2 num ((sfi<<3)|0b100)` with no data. -/
def readRecordAPDU (sfi num : Nat) : APDU :=
  APDU.new 0x00 0xB2 num ((sfi <<< 3) ||| 0b100) []

/-- The mutable state of `RecordIter`: the SFI and the next record number
(`new` starts at 1). -/
structure RecordIterState where
  sfi : Nat
  num : Nat
deriving DecidableEq, Repr

/-- `RecordIter::new`. -/
def RecordIter.new (sfi : Nat) : RecordIterState := { sfi := sfi, num := 1 }

/-- One call of `RecordIter::next` against a scripted transport: issue
READ RECORD for the current number through `Card::exec`, increment the number,
translate a `RecordNotFound` status error into `none` and pass everything else
through as `some`.  Returns the item, the successor state and the unconsumed
script. -/
def RecordIter.next (st : RecordIterState) (script : List RAPDU) :
    Option (Except ExecErr RAPDU) × RecordIterState × List RAPDU :=
  let r := exec (readRecordAPDU st.sfi st.num) script
  let st' : RecordIterState := { st with num := st.num + 1 }
  match r.1 with
  | .error (.apdu .RecordNotFound) => (none, st', r.2)
  | res => (some res, st', r.2)

/-- Iterate `RecordIter::next` `n` times, collecting the yielded items in
order together with the final state and unconsumed script. -/
def RecordIter.run (n : Nat) (st : RecordIterState) (script : List RAPDU) :
    List (Option (Except ExecErr RAPDU)) × RecordIterState × List RAPDU :=
  match n with
  | 0 => ([], st, script)
  | n + 1 =>
    let step := RecordIter.next st script
    let rec' := RecordIter.run n step.2.1 step.2.2
    (step.1 :: rec'.1, rec'.2)

end Iso7816

namespace Core

/-- The request APDU of `src/core/apdu.rs`: `le` is an `Option<usize>`. -/
structure Request where
  cla : Nat
  ins : Nat
  p1 : Nat
  p2 : Nat
  data : List Nat
  le : Option Nat
deriving DecidableEq, Repr

/-- `Request::new` (`le` starts out `None`). -/
def Request.new (cla ins p1 p2 : Nat) (data : List Nat) : Request :=
  { cla := cla, ins := ins, p1 := p1, p2 := p2, data := data, le := none }

/-- `Request::expect`. -/
def Request.expect (r : Request) (le : Nat) : Request := { r with le := some le }

/-- The response APDU of `src/core/apdu.rs` / `old/src/apdu.rs`.  Its status
carries the full classification enum modelled above as `OldApdu.Status`
(which has exactly the constructors `Transport::call_apdu` matches on:
`OK`, `BytesRemaining`, `ErrRetryWithLe`, everything else generic). -/
structure Response where
  status : OldApdu.Status
  data : List Nat
deriving Repr

/-- Errors `Transport::call_apdu` can produce: a terminal non-OK status is
`ErrorKind::StatusError(status)`; a scripted transport that has run out of
responses is a transport error. -/
inductive CallErr
  | statusError (s : OldApdu.Status)
  | transport
deriving Repr

/-- `GetResponse::<()>::new(cla, le).to_apdu()` via the default
`cmd::Request::to_apdu` (`src/card/get_response.rs` + `src/cmd.rs`):
CLA as given, INS `0xC0`, default P1/P2/data, `le = Some(le)`. -/
def getResponseRequest (cla le : Nat) : Request :=
  { cla := cla, ins := 0xC0, p1 := 0x00, p2 := 0x00, data := [], le := some le }

/-- `Transport::call_apdu` of `src/transport/transport.rs` run against a
scripted transport (the list of `Response`s successive `call_raw_apdu` calls
return, consumed one per call).  On `BytesRemaining(le)` it recurses on a GET
RESPONSE built from the *original request's* CLA; on `ErrRetryWithLe(le)` it
recurses on the same request with `le` expected; the response data of the
inner calls is *not* concatenated with anything — the `Ok` value is the last
transport response verbatim.  The second component returned by the model is
the trace of requests issued. -/
def call_apdu (req : Request) : List Response → Except CallErr (Response × List Request)
  | [] => .error .transport
  | r :: rest =>
    match r.status with
    | .OK => .ok (r, [req])
    | .BytesRemaining le =>
      match call_apdu (getResponseRequest req.cla le) rest with
      | .ok (resp, tr) => .ok (resp, req :: tr)
      | .error e => .error e
    | .ErrRetryWithLe le =>
      match call_apdu (req.expect le) rest with
      | .ok (resp, tr) => .ok (resp, req :: tr)
      | .error e => .error e
    | s => .error (.statusError s)

end Core

end Cardinal

namespace Cardinal

open OldApdu in
/-- C3: for every 16-bit value `y`, classifying it with `Status::from_u16` and
encoding back with `as_u16` yields `y` again. -/
theorem c3_status_u16_round_trip (y : Nat) (h : y < 65536) :
    Status.as_u16 (Status.from_u16 y) = y := by
  unfold Status.from_u16 Status.as_u16
  rw [Status.as_tuple_from_sw]
  omega

open OldApdu in
theorem c3_status_u16_round_trip_witness :
    0x6283 < 65536 ∧ Status.as_u16 (Status.from_u16 0x6283) = 0x6283 :=
  ⟨by decide, c3_status_u16_round_trip 0x6283 (by decide)⟩

open OldApdu Lib in
/-- C7 counterexample: no draft of the classification maps `0x6300` to an
authentication-failed variant: the `old/src/apdu.rs` draft classifies it as the
generic `Warning(0x63)` and the `src/lib.rs` draft (which *declares* an
`AuthenticationFailed` variant documented as 0x6300) classifies it as
`Unknown(0x63, 0x00)`. -/
theorem c7_counterexample :
    OldApdu.Status.from_sw 0x63 0x00 = OldApdu.Status.Warning 0x63 ∧
    Lib.Status.from_sw 0x63 0x00 = Lib.Status.Unknown 0x63 0x00 ∧
    Lib.Status.from_sw 0x63 0x00 ≠ Lib.Status.AuthenticationFailed := by
  refine ⟨by rfl, by decide, by decide⟩

open OldApdu in
theorem old_counter_branch (x : Nat) (hx : x ≤ 0xF) :
    Status.from_sw 0x63 (0xC0 + x) = Status.Counter x := by
  show Status.from_63 (0xC0 + x) = Status.Counter x
  delta Status.from_63
  split_ifs with h1 h2 h3 h4
  · exact absurd h1 (by omega)
  · exact absurd h2 (by omega)
  · exact absurd h3 (by omega)
  · congr 1
    omega
  · exact absurd ⟨by omega, by omega⟩ h4

open Lib in
theorem lib_counter_branch (x : Nat) :
    Lib.Status.from_sw 0x63 (0xC0 + x) = Lib.Status.Counter (0xC0 + x) := by
  have hlt : ¬(0xC0 + x < 0xC0) := by omega
  simp [Lib.Status.from_sw, hlt]

/-- C7 (amended): in the `old/src/apdu.rs` draft, `0x6283` maps to
`SelectedFileDeactivated`, `0x63Cx` to `Counter(x)` with the counter value
`0..=15`, and `0x6581` to the memory-failure variant, but `0x6300` maps to the
generic `Warning(0x63)`; in the `src/lib.rs` draft those branches diverge
further (`Counter` keeps the raw byte, the rest fall to `Unknown`). -/
theorem c7_status_branches (x : Nat) (hx : x ≤ 0xF) :
    OldApdu.Status.from_sw 0x62 0x83 = OldApdu.Status.SelectedFileDeactivated ∧
    OldApdu.Status.from_sw 0x63 (0xC0 + x) = OldApdu.Status.Counter x ∧
    OldApdu.Status.from_sw 0x65 0x81 = OldApdu.Status.ErrMemoryFailure ∧
    OldApdu.Status.from_sw 0x63 0x00 = OldApdu.Status.Warning 0x63 ∧
    Lib.Status.from_sw 0x63 (0xC0 + x) = Lib.Status.Counter (0xC0 + x) ∧
    Lib.Status.from_sw 0x62 0x83 = Lib.Status.Unknown 0x62 0x83 ∧
    Lib.Status.from_sw 0x65 0x81 = Lib.Status.Unknown 0x65 0x81 :=
  ⟨by rfl, old_counter_branch x hx, by rfl, by rfl,
   lib_counter_branch x, by decide, by decide⟩

theorem c7_status_branches_witness :
    OldApdu.Status.from_sw 0x63 (0xC0 + 5) = OldApdu.Status.Counter 5 :=
  (c7_status_branches 5 (by decide)).2.1

end Cardinal

namespace Cardinal

open Lib Iso7816

/-- The scripted transport of claim C4: "ok" (with a 1-byte body) for records
1..5, `6A 83` (RecordNotFound) for every later record; seven entries so that a
seventh transport call is observable. -/
def c4script7 : List RAPDU :=
  [⟨[1], .OK⟩, ⟨[2], .OK⟩, ⟨[3], .OK⟩, ⟨[4], .OK⟩, ⟨[5], .OK⟩,
   ⟨[], .RecordNotFound⟩, ⟨[], .RecordNotFound⟩]

/-- C4 counterexample: with the claim's script, the first six `next()` calls
yield five `Ok` items and one `None` (one scripted response still unconsumed),
but a seventh `next()` consumes the seventh response: the iterator calls the
transport again after having returned `None`, because `RecordIter::next`
unconditionally issues a READ RECORD (there is no fuse). -/
theorem c4_counterexample :
    (RecordIter.run 6 (RecordIter.new 1) c4script7).1 =
      [some (.ok ⟨[1], .OK⟩), some (.ok ⟨[2], .OK⟩), some (.ok ⟨[3], .OK⟩),
       some (.ok ⟨[4], .OK⟩), some (.ok ⟨[5], .OK⟩), none] ∧
    (RecordIter.run 6 (RecordIter.new 1) c4script7).2.2 = [⟨[], .RecordNotFound⟩] ∧
    (RecordIter.run 7 (RecordIter.new 1) c4script7).2.2 = [] := by
  refine ⟨by rfl, by rfl, by rfl⟩

/-- C4 (amended): the iterator starts at record number 1; each `next()` against
a terminal-status script issues exactly one transport call; a `RecordNotFound`
head yields `None`, an `OK` head yields the response, any other terminal error
is surfaced as `Some(Err(StatusError))`; on the claim's script the first six
calls yield exactly five `Ok` items and then `None` — but the iterator has no
fuse, so only those six calls (not "forever") are characterised. -/
theorem c4_record_iter_behaviour (sfi : Nat) (st : RecordIterState) (r : RAPDU)
    (rest : List RAPDU) :
    (RecordIter.new sfi).num = 1 ∧
    (r.sw = .OK →
      RecordIter.next st (r :: rest) = (some (.ok r), ⟨st.sfi, st.num + 1⟩, rest)) ∧
    (r.sw = .RecordNotFound →
      RecordIter.next st (r :: rest) = (none, ⟨st.sfi, st.num + 1⟩, rest)) ∧
    (r.sw ≠ .OK → r.sw ≠ .RecordNotFound → (∀ xx, r.sw ≠ .GetResponse xx) →
      (∀ xx, r.sw ≠ .RetryWithLe xx) →
      RecordIter.next st (r :: rest) =
        (some (.error (.apdu r.sw)), ⟨st.sfi, st.num + 1⟩, rest)) ∧
    (RecordIter.run 6 (RecordIter.new sfi) c4script7).1 =
      [some (.ok ⟨[1], .OK⟩), some (.ok ⟨[2], .OK⟩), some (.ok ⟨[3], .OK⟩),
       some (.ok ⟨[4], .OK⟩), some (.ok ⟨[5], .OK⟩), none] ∧
    (RecordIter.run 6 (RecordIter.new sfi) c4script7).2.1 = ⟨sfi, 7⟩ := by
  refine ⟨rfl, ?_, ?_, ?_, by rfl, by rfl⟩
  · intro h
    simp [RecordIter.next, exec, h]
  · intro h
    simp [RecordIter.next, exec, h]
  · intro h1 h2 h3 h4
    rcases r with ⟨d, sw⟩
    cases sw <;> first
      | (exact absurd rfl h1)
      | (exact absurd rfl h2)
      | (exact absurd rfl (h3 _))
      | (exact absurd rfl (h4 _))
      | simp [RecordIter.next, exec]

theorem c4_record_iter_behaviour_witness :
    RecordIter.next ⟨1, 3⟩ [⟨[], Lib.Status.FileNotFound⟩] =
      (some (.error (.apdu .FileNotFound)), ⟨1, 4⟩, []) :=
  (c4_record_iter_behaviour 1 ⟨1, 3⟩ ⟨[], .FileNotFound⟩ []).2.2.2.1
    (by decide) (by decide)
    (fun _ h => Lib.Status.noConfusion h) (fun _ h => Lib.Status.noConfusion h)

end Cardinal

namespace Cardinal

namespace Core

/-- A successful `call_apdu` returns one of the scripted transport responses
verbatim — the one whose status was `OK`: no data from earlier (partial)
responses is concatenated into it. -/
theorem call_apdu_ok_mem (script : List Response) :
    ∀ (req : Request) (resp : Response) (tr : List Request),
      call_apdu req script = .ok (resp, tr) →
      resp ∈ script ∧ resp.status = OldApdu.Status.OK := by
  induction script with
  | nil =>
    intro req resp tr h
    simp [call_apdu] at h
  | cons r rest ih =>
    intro req resp tr h
    unfold call_apdu at h
    split at h
    · -- `OK` arm
      rename_i heq
      simp only [Except.ok.injEq, Prod.mk.injEq] at h
      obtain ⟨h1, _⟩ := h
      exact ⟨h1 ▸ List.mem_cons_self r rest, h1 ▸ heq⟩
    · -- `BytesRemaining` arm
      rename_i le heq
      split at h
      · rename_i rsp t hrec
        simp only [Except.ok.injEq, Prod.mk.injEq] at h
        obtain ⟨h1, _⟩ := h
        obtain ⟨hmem, hst⟩ := ih _ rsp t hrec
        exact ⟨h1 ▸ List.mem_cons_of_mem r hmem, h1 ▸ hst⟩
      · exact Except.noConfusion h
    · -- `ErrRetryWithLe` arm
      rename_i le heq
      split at h
      · rename_i rsp t hrec
        simp only [Except.ok.injEq, Prod.mk.injEq] at h
        obtain ⟨h1, _⟩ := h
        obtain ⟨hmem, hst⟩ := ih _ rsp t hrec
        exact ⟨h1 ▸ List.mem_cons_of_mem r hmem, h1 ▸ hst⟩
      · exact Except.noConfusion h
    · -- terminal non-OK statuses
      exact Except.noConfusion h

end Core

end Cardinal

namespace Cardinal

namespace Core

/-- The original request of claim C2's scripted example (CLA `0x80`). -/
def c2orig : Request := Request.new 0x80 0xCA 0x01 0x02 []

/-- Claim C2's scripted transport: 64 bytes with SW `61 20`, then 32 bytes
with SW `90 00`. -/
def c2script : List Response :=
  [⟨.BytesRemaining 0x20, List.replicate 64 0xAA⟩, ⟨.OK, List.replicate 32 0xBB⟩]

/-- C2 counterexample: on the claim's script the logical call succeeds but its
data is the 32-byte tail alone — the second conjunct pins down that this is not
the 96-byte concatenation the claim asserts. -/
theorem c2_counterexample :
    call_apdu c2orig c2script =
      .ok (⟨OldApdu.Status.OK, List.replicate 32 0xBB⟩,
           [c2orig, getResponseRequest 0x80 0x20]) ∧
    (List.replicate 32 0xBB : List Nat) ≠
      List.replicate 64 0xAA ++ List.replicate 32 0xBB :=
  ⟨by rfl, by decide⟩

/-- C2 (amended): on `BytesRemaining(n)` the command layer issues a GET
RESPONSE with INS `0xC0`, the original request's CLA and `Le = n`, and the
logical response is the response of the recursive call on the remaining
script — the partial data `d` is discarded, so the final data is the data of
the last transport call (32 bytes, status OK, in the claim's example), not a
concatenation. -/
theorem c2_get_response_recovery (req : Request) (n : Nat) (d : List Nat)
    (rest : List Response) (resp : Response) (tr : List Request)
    (h : call_apdu req (⟨.BytesRemaining n, d⟩ :: rest) = .ok (resp, tr)) :
    (getResponseRequest req.cla n).ins = 0xC0 ∧
    (getResponseRequest req.cla n).cla = req.cla ∧
    (getResponseRequest req.cla n).le = some n ∧
    (∃ t, tr = req :: t ∧
      call_apdu (getResponseRequest req.cla n) rest = .ok (resp, t)) ∧
    resp ∈ rest ∧ resp.status = OldApdu.Status.OK ∧
    call_apdu c2orig c2script =
      .ok (⟨OldApdu.Status.OK, List.replicate 32 0xBB⟩,
           [c2orig, getResponseRequest 0x80 0x20]) := by
  have key : ∃ t, tr = req :: t ∧
      call_apdu (getResponseRequest req.cla n) rest = .ok (resp, t) := by
    unfold call_apdu at h
    simp only at h
    split at h
    · rename_i rsp t hrec
      simp only [Except.ok.injEq, Prod.mk.injEq] at h
      exact ⟨t, h.2.symm, h.1 ▸ hrec⟩
    · exact Except.noConfusion h
  obtain ⟨t, htr, hrec⟩ := key
  obtain ⟨hmem, hst⟩ := call_apdu_ok_mem rest _ resp t hrec
  exact ⟨rfl, rfl, rfl, ⟨t, htr, hrec⟩, hmem, hst, by rfl⟩

theorem c2_get_response_recovery_witness :
    (getResponseRequest c2orig.cla 0x20).ins = 0xC0 ∧
    (getResponseRequest c2orig.cla 0x20).cla = c2orig.cla ∧
    (getResponseRequest c2orig.cla 0x20).le = some 0x20 ∧
    (∃ t, [c2orig, getResponseRequest 0x80 0x20] = c2orig :: t ∧
      call_apdu (getResponseRequest c2orig.cla 0x20)
          [⟨OldApdu.Status.OK, List.replicate 32 0xBB⟩] =
        .ok (⟨OldApdu.Status.OK, List.replicate 32 0xBB⟩, t)) ∧
    (⟨OldApdu.Status.OK, List.replicate 32 0xBB⟩ : Response) ∈
      [(⟨OldApdu.Status.OK, List.replicate 32 0xBB⟩ : Response)] ∧
    (⟨OldApdu.Status.OK, List.replicate 32 0xBB⟩ : Response).status =
      OldApdu.Status.OK ∧
    call_apdu c2orig c2script =
      .ok (⟨OldApdu.Status.OK, List.replicate 32 0xBB⟩,
           [c2orig, getResponseRequest 0x80 0x20]) :=
  c2_get_response_recovery c2orig 0x20 (List.replicate 64 0xAA)
    [⟨OldApdu.Status.OK, List.replicate 32 0xBB⟩]
    ⟨OldApdu.Status.OK, List.replicate 32 0xBB⟩
    [c2orig, getResponseRequest 0x80 0x20] (by rfl)

end Core

end Cardinal

namespace Cardinal.Ber

/-- A well-formed tag encoding: the byte sequences `take_tag` can actually
produce (single byte with low 5 bits not all set, or a multi-byte tag whose
first byte has them all set, whose middle bytes have the high bit set and
whose final byte does not). -/
def wfTag : List Nat → Bool
  | [] => false
  | [b] => b &&& 0x1F != 0x1F
  | b :: rest =>
    (b &&& 0x1F == 0x1F) && rest.dropLast.all (fun x => x &&& 0x80 != 0) &&
      ((rest.getLast?.getD 0) &&& 0x80 == 0)

theorem takeWhile_all_append {p : Nat → Bool} (l : List Nat)
    (hl : ∀ x ∈ l, p x = true) (a : Nat) (ha : p a = false) (s : List Nat) :
    (l ++ a :: s).takeWhile p = l := by
  induction l with
  | nil => simp [List.takeWhile_cons, ha]
  | cons x xs ih =>
    have hx := hl x (List.mem_cons_self x xs)
    simp only [List.cons_append, List.takeWhile_cons, hx, if_true]
    rw [ih (fun y hy => hl y (List.mem_cons_of_mem x hy))]

/-- `take_tag` parses back exactly a well-formed tag, whatever follows it. -/
theorem take_tag_wf (tag : List Nat) (hw : wfTag tag = true) (s : List Nat) :
    take_tag (tag ++ s) = .ok (s, tag) := by
  match tag with
  | [] => simp [wfTag] at hw
  | [b] =>
    simp only [wfTag] at hw
    simp [take_tag, hw]
  | b :: r :: rs =>
    simp only [wfTag, Bool.and_eq_true, beq_iff_eq, bne_iff_ne, List.all_eq_true] at hw
    obtain ⟨⟨hb, hmid⟩, hlast⟩ := hw
    have hne : r :: rs ≠ [] := by simp
    have hdecomp := List.dropLast_append_getLast hne
    have hlast' : ((r :: rs).getLast hne) &&& 0x80 = 0 := by
      have : (r :: rs).getLast? = some ((r :: rs).getLast hne) :=
        List.getLast?_eq_getLast _ hne
      simpa [this] using hlast
    simp only [take_tag, List.cons_append]
    rw [if_neg (by simp [hb])]
    have htw : (List.takeWhile (fun x => x &&& 0x80 != 0) (r :: (rs ++ s))) =
        (r :: rs).dropLast := by
      have hshape : r :: (rs ++ s) =
          ((r :: rs).dropLast ++ ((r :: rs).getLast hne) :: s) := by
        conv_lhs => rw [← List.cons_append, ← hdecomp]
        simp [List.append_assoc]
      rw [hshape]
      exact takeWhile_all_append _
        (fun x hx => by simpa using hmid x hx)
        _ (by simp [hlast']) s
    rw [htw]
    have hlen : 2 + (r :: rs).dropLast.length = (b :: r :: rs).length := by
      simp [List.length_dropLast]
      omega
    rw [hlen]
    rw [show b :: r :: (rs ++ s) = (b :: r :: rs) ++ s by simp]
    unfold nomTake
    rw [if_pos (by simp)]
    rw [List.take_left' rfl, List.drop_left' rfl]

end Cardinal.Ber

namespace Cardinal.Ber

theorem bufWrite_length (buf src : List Nat) (off : Nat)
    (h : off + src.length ≤ buf.length) :
    (bufWrite buf off src).length = buf.length := by
  simp [bufWrite]
  omega

theorem bufWrite_take_eq (buf src : List Nat) (off : Nat) (h : off ≤ buf.length) :
    (bufWrite buf off src).take off = buf.take off := by
  unfold bufWrite
  rw [List.append_assoc]
  exact List.take_left' (by simp; omega)

theorem bufWrite_take_through (buf src : List Nat) (off : Nat) (h : off ≤ buf.length) :
    (bufWrite buf off src).take (off + src.length) = buf.take off ++ src := by
  unfold bufWrite
  exact List.take_left' (by simp; omega)

/-- With a value of at most `0x7F` bytes the writer produces
`tag ++ [len] ++ value` — the short-length encoding. -/
theorem serialize_tv_short (tag value : List Nat) (hv : value.length ≤ 0x7F) :
    serialize_tv tag value = some (tag ++ value.length :: value) := by
  have hn : (List.replicate (tag.length + value.length + 9) 0).length
      = tag.length + value.length + 9 := by simp
  have h1 : (0 : Nat) + tag.length ≤ tag.length + value.length + 9 := by omega
  have hlen1 : (bufWrite (List.replicate (tag.length + value.length + 9) 0) 0 tag).length
      = tag.length + value.length + 9 := by
    rw [bufWrite_length _ _ _ (by omega : 0 + tag.length ≤ _)]
    exact hn
  have hlen2 : (bufWrite (bufWrite (List.replicate (tag.length + value.length + 9) 0) 0 tag)
      tag.length [value.length]).length = tag.length + value.length + 9 := by
    rw [bufWrite_length _ _ _ (by simp [hlen1]; omega)]
    exact hlen1
  simp only [serialize_tv, tv_try_into_ctx, hn]
  rw [if_pos (by omega), if_pos hv, if_pos (by rw [hlen1]; omega),
    if_pos (by rw [hlen2]; omega)]
  rw [Option.map_some']
  congr 1
  have step3 := bufWrite_take_through
    (bufWrite (bufWrite (List.replicate (tag.length + value.length + 9) 0) 0 tag)
      tag.length [value.length]) value (tag.length + 1) (by rw [hlen2]; omega)
  have hL : tag.length + 1 + value.length = (tag.length + 1) + value.length := rfl
  rw [hL, step3]
  have step2a : (bufWrite (bufWrite (List.replicate (tag.length + value.length + 9) 0) 0 tag)
      tag.length [value.length]).take (tag.length + 1) =
      (bufWrite (List.replicate (tag.length + value.length + 9) 0) 0 tag).take tag.length
        ++ [value.length] := by
    have := bufWrite_take_through
      (bufWrite (List.replicate (tag.length + value.length + 9) 0) 0 tag)
      [value.length] tag.length (by rw [hlen1]; omega)
    simpa using this
  rw [step2a]
  have step1 : (bufWrite (List.replicate (tag.length + value.length + 9) 0) 0 tag).take
      tag.length = tag := by
    have := bufWrite_take_through (List.replicate (tag.length + value.length + 9) 0)
      tag 0 (by omega)
    simpa using this
  rw [step1]
  rw [List.append_assoc]
  rfl

end Cardinal.Ber

namespace Cardinal.Ber

theorem scrollBytes_length (n v : Nat) : (scrollBytes n v).length = n := by
  simp [scrollBytes]

theorem bufWrite_take_of_le (buf src : List Nat) (off m : Nat) (hm : m ≤ off)
    (h : off ≤ buf.length) :
    (bufWrite buf off src).take m = buf.take m := by
  unfold bufWrite
  rw [List.append_assoc]
  rw [List.take_append_of_le_length (by simp; omega)]
  rw [List.take_take, Nat.min_eq_left hm]

/-- With a value longer than `0x7F` bytes the writer's extended-length branch
never advances its offset, so the value is written straight over the length
marker and length bytes: the produced bytes are just `tag ++ value`. -/
theorem serialize_tv_long (tag value : List Nat) (hv : 0x7F < value.length) :
    serialize_tv tag value = some (tag ++ value) := by
  have hn : (List.replicate (tag.length + value.length + 9) 0).length
      = tag.length + value.length + 9 := by simp
  simp only [serialize_tv, tv_try_into_ctx, hn]
  rw [if_pos (by omega), if_neg (by omega)]
  generalize hLdef : (if value.length ≤ 0xFF then 1
      else if value.length ≤ 0xFFFF then 2
      else if value.length ≤ 0xFFFFFFFF then 4
      else (8 : Nat)) = L
  have hL : 1 ≤ L ∧ L ≤ 8 := by
    rw [← hLdef]
    constructor <;> split_ifs <;> norm_num
  have hlen1 : (bufWrite (List.replicate (tag.length + value.length + 9) 0) 0 tag).length
      = tag.length + value.length + 9 := by
    rw [bufWrite_length _ _ _ (by omega : 0 + tag.length ≤ _)]
    exact hn
  have hlen2 : (bufWrite (bufWrite (List.replicate (tag.length + value.length + 9) 0) 0 tag)
      (tag.length + 1) (scrollBytes L value.length)).length
      = tag.length + value.length + 9 := by
    rw [bufWrite_length _ _ _ (by rw [hlen1, scrollBytes_length]; omega)]
    exact hlen1
  have hlen3 : (bufWrite (bufWrite (bufWrite (List.replicate (tag.length + value.length + 9) 0)
      0 tag) (tag.length + 1) (scrollBytes L value.length)) tag.length [0x80 ||| L]).length
      = tag.length + value.length + 9 := by
    rw [bufWrite_length _ _ _ (by rw [hlen2]; simp; omega)]
    exact hlen2
  rw [if_pos (by rw [hlen1]; omega), if_pos (by rw [hlen3]; omega)]
  rw [Option.map_some']
  congr 1
  rw [bufWrite_take_through _ value tag.length (by rw [hlen3]; omega)]
  rw [bufWrite_take_eq _ [0x80 ||| L] tag.length (by rw [hlen2]; omega)]
  rw [bufWrite_take_of_le _ (scrollBytes L value.length) (tag.length + 1) tag.length
    (by omega) (by rw [hlen1]; omega)]
  have step1 : (bufWrite (List.replicate (tag.length + value.length + 9) 0) 0 tag).take
      tag.length = tag := by
    have := bufWrite_take_through (List.replicate (tag.length + value.length + 9) 0)
      tag 0 (by omega)
    simpa using this
  rw [step1]

end Cardinal.Ber

namespace Cardinal.Ber

theorem take_len_short (len : Nat) (v : List Nat) (hlen : len ≤ 0x7F) :
    take_len (len :: v) = .ok (v, len) := by
  simp [take_len, hlen]

/-- C1 (amended): the serialize/parse round trip holds for every well-formed
tag of 1..=4 bytes and every value of at most `0x7F` bytes (the short-length
encoding); for longer values the writer's extended-length branch never
advances its offset, the value overwrites the length field (see
`serialize_tv_long`) and the round trip fails. -/
theorem c1_tv_round_trip (tag value : List Nat) (hw : wfTag tag = true)
    (htag : tag.length ≤ 4) (hv : value.length ≤ 0x7F) :
    serialize_tv tag value = some (tag ++ value.length :: value) ∧
    parse_next (tag ++ value.length :: value) = .ok ([], (tag, value)) := by
  refine ⟨serialize_tv_short tag value hv, ?_⟩
  have h3 : nomTake value.length value = .ok ([], value) := by
    simp [nomTake]
  simp only [parse_next, take_tag_wf tag hw, take_len_short value.length value hv, h3]

theorem c1_tv_round_trip_witness :
    serialize_tv [0x6F] [0xAB] = some ([0x6F] ++ [0xAB].length :: [0xAB]) ∧
    parse_next ([0x6F] ++ [0xAB].length :: [0xAB]) = .ok ([], ([0x6F], [0xAB])) :=
  c1_tv_round_trip [0x6F] [0xAB] (by decide) (by decide) (by decide)

/-- C1 counterexample: with tag `0x6F` and a 128-byte value the writer emits
`tag ++ value` (no length field at all), and `parse_next` on those bytes reads
the first value byte `0x00` as the length, returning an empty value and 127
unconsumed bytes — not `(empty, (tag, value))`. -/
theorem c1_counterexample :
    serialize_tv [0x6F] (List.replicate 128 0) = some ([0x6F] ++ List.replicate 128 0) ∧
    parse_next ([0x6F] ++ List.replicate 128 0) =
      .ok (List.replicate 127 0, ([0x6F], [])) ∧
    PRes.ok (List.replicate 127 0, ([0x6F], ([] : List Nat))) ≠
      .ok ([], ([0x6F], List.replicate 128 0)) := by
  refine ⟨serialize_tv_long [0x6F] (List.replicate 128 0) (by simp), by rfl, by decide⟩

/-- C5 counterexample: the input `[0x6F]` is a non-empty partial record
(tag present, length byte missing), yet the iterator terminates silently with
`None` instead of yielding `Err(Truncated)` — nom's complete parsers signal
`Eof` for every truncation and `Iter::next` folds `Eof` into `None`. -/
theorem c5_counterexample :
    iterNext [0x6F] = .done ∧ ([0x6F] : List Nat) ≠ [] := by
  refine ⟨by rfl, by decide⟩

/-- C5 (amended): the iterator terminates cleanly (`None`) on empty input —
and equally silently on a partial final record whose length byte is missing or
whose value is truncated, because those truncations surface as nom `Eof`; a
`Some(Err(..))` item arises only from non-`Eof` errors such as the oversized /
indeterminate length markers (`TooLarge`). -/
theorem c5_iter_termination (tag v : List Nat) (len : Nat) (hw : wfTag tag = true)
    (hlen : len ≤ 0x7F) (hv : v.length < len) :
    iterNext [] = .done ∧
    iterNext tag = .done ∧
    iterNext (tag ++ len :: v) = .done ∧
    iterNext [0x6F, 0x80] = .failed .tooLarge := by
  refine ⟨by rfl, ?_, ?_, by rfl⟩
  · have htag : take_tag tag = .ok ([], tag) := by
      have := take_tag_wf tag hw []
      simpa using this
    simp [iterNext, parse_next, htag, take_len]
  · have h3 : nomTake len v = .err .eof := by
      simp [nomTake]
      omega
    simp only [iterNext, parse_next, take_tag_wf tag hw, take_len_short len v hlen, h3]

theorem c5_iter_termination_witness :
    iterNext [] = .done ∧
    iterNext [0x5F, 0x2D] = .done ∧
    iterNext ([0x5F, 0x2D] ++ 2 :: [0x65]) = .done ∧
    iterNext [0x6F, 0x80] = .failed .tooLarge :=
  c5_iter_termination [0x5F, 0x2D] [0x65] 2 (by decide) (by decide) (by decide)

/-- C10: `take_len` is not total on truncated extended-length inputs — when
the first byte has its high bit set with low bits `N` in 1..=8 but fewer than
`N` bytes follow, the source indexes `&data[lenlen..]` out of bounds, a panic
(modelled as `panicked`), rather than returning a parse error. -/
theorem c10_take_len_panics (b : Nat) (rest : List Nat)
    (h1 : ¬ b ≤ 127) (h2 : 1 ≤ b &&& 0x7F) (h3 : b &&& 0x7F ≤ 8)
    (h4 : rest.length < b &&& 0x7F) :
    take_len (b :: rest) = .panicked := by
  simp only [take_len]
  rw [if_neg h1, if_neg (by rw [not_or]; exact ⟨by omega, by omega⟩), if_neg (by omega)]

theorem c10_take_len_panics_witness :
    take_len [0x82, 0x01] = .panicked :=
  c10_take_len_panics 0x82 [0x01] (by decide) (by decide) (by decide) (by decide)

end Cardinal.Ber

namespace Cardinal.Ber

theorem take_tag_consumes (data d1 tag : List Nat) (h : take_tag data = .ok (d1, tag)) :
    d1.length < data.length := by
  unfold take_tag at h
  match data with
  | [] => exact PRes.noConfusion h
  | short :: rest =>
    simp only at h
    split at h
    · simp only [PRes.ok.injEq, Prod.mk.injEq] at h
      obtain ⟨h1, _⟩ := h
      subst h1
      simp
    · unfold nomTake at h
      split at h
      · simp only [PRes.ok.injEq, Prod.mk.injEq] at h
        obtain ⟨h1, _⟩ := h
        subst h1
        simp only [List.length_drop, List.length_cons]
        omega
      · exact PRes.noConfusion h

theorem take_len_consumes (d1 d2 : List Nat) (len : Nat) (h : take_len d1 = .ok (d2, len)) :
    d2.length < d1.length := by
  unfold take_len at h
  match d1 with
  | [] => exact PRes.noConfusion h
  | lenlen :: data =>
    simp only at h
    split at h
    · simp only [PRes.ok.injEq, Prod.mk.injEq] at h
      obtain ⟨h1, _⟩ := h
      subst h1
      simp
    · split at h
      · exact PRes.noConfusion h
      · split at h
        · simp only [PRes.ok.injEq, Prod.mk.injEq] at h
          obtain ⟨h1, _⟩ := h
          subst h1
          simp only [List.length_drop, List.length_cons]
          omega
        · exact PRes.noConfusion h

theorem nomTake_consumes (len : Nat) (d2 d3 v : List Nat) (h : nomTake len d2 = .ok (d3, v)) :
    d3.length ≤ d2.length := by
  unfold nomTake at h
  split at h
  · simp only [PRes.ok.injEq, Prod.mk.injEq] at h
    obtain ⟨h1, _⟩ := h
    subst h1
    simp
  · exact PRes.noConfusion h

/-- A successful `parse_next` strictly consumes input (a record is at least
two bytes); this is what makes the BER iterators terminate. -/
theorem parse_next_consumes (data rest tag value : List Nat)
    (h : parse_next data = .ok (rest, (tag, value))) : rest.length < data.length := by
  unfold parse_next at h
  split at h
  · exact PRes.noConfusion h
  · exact PRes.noConfusion h
  · rename_i d1 tag1 heq1
    split at h
    · exact PRes.noConfusion h
    · exact PRes.noConfusion h
    · rename_i d2 len heq2
      split at h
      · exact PRes.noConfusion h
      · exact PRes.noConfusion h
      · rename_i d3 val heq3
        simp only [PRes.ok.injEq, Prod.mk.injEq] at h
        obtain ⟨h1, _⟩ := h
        subst h1
        have s1 := take_tag_consumes data d1 tag1 heq1
        have s2 := take_len_consumes d1 d2 len heq2
        have s3 := nomTake_consumes len d2 d3 val heq3
        omega

end Cardinal.Ber

namespace Cardinal.Emv

open Cardinal.Ber

/-- The `FCIIssuerDiscretionaryData` struct of `src/emv.rs`. -/
structure FCIIDD where
  log_entry : Option (Nat × Nat)
  app_capability_info : Option (Nat × Nat × Nat)
  app_selection_reg_propr_data : Option (List (Nat × List Nat))
  ds_id : Option (List Nat)
  unknown_9f6e : Option (List Nat)
deriving DecidableEq, Repr

/-- The `Directory` struct of `src/emv.rs` (strings modelled as their raw
bytes; `from_utf8_lossy` is a representation change only). -/
structure Directory where
  ef_sfi : Nat
  lang_prefs : Option (List Nat)
  issuer_code_table_idx : Option Nat
  fci_issuer_discretionary_data : Option FCIIDD
deriving DecidableEq, Repr

instance : Inhabited FCIIDD := ⟨⟨none, none, none, none, none⟩⟩

def FCIIDD.default : FCIIDD := ⟨none, none, none, none, none⟩

def Directory.default : Directory := ⟨0, none, none, none⟩

/-- The `0x9F0A` simple-TLV sub-loop of `FCIIssuerDiscretionaryData::try_from`
(`src/emv.rs`): 2-byte big-endian tag, 1-byte length, value; the source uses
`split_at`/`split_first().unwrap()`, which panic when the stream is
truncated. -/
def simpleTLVs (data : List Nat) : PRes (List (Nat × List Nat)) :=
  match data with
  | [] => .ok []
  | [_] => .panicked
  | t1 :: t2 :: rest0 =>
    match rest0 with
    | [] => .panicked
    | len :: rest =>
      if h : len ≤ rest.length then
        match simpleTLVs (rest.drop len) with
        | .ok tvs => .ok ((t1 * 256 + t2, rest.take len) :: tvs)
        | .err e => .err e
        | .panicked => .panicked
      else .panicked
termination_by data.length
decreasing_by simp only [List.length_drop, List.length_cons]; omega

/-- One arm of the `match tag` in `FCIIssuerDiscretionaryData::try_from`. -/
def FCIIDD.step (slf : FCIIDD) (tag value : List Nat) : PRes FCIIDD :=
  if tag = [0x9F, 0x4D] then
    .ok { slf with log_entry := some (value.headD 0, value.getLastD 0) }
  else if tag = [0x9F, 0x5D] ∧ value.length = 3 then
    .ok { slf with
      app_capability_info := some (value.headD 0, (value.drop 1).headD 0, (value.drop 2).headD 0) }
  else if tag = [0x9F, 0x0A] then
    match simpleTLVs value with
    | .ok tvs => .ok { slf with app_selection_reg_propr_data := some tvs }
    | .err e => .err e
    | .panicked => .panicked
  else if tag = [0x9F, 0x5E] then .ok { slf with ds_id := some value }
  else if tag = [0x9F, 0x6E] then .ok { slf with unknown_9f6e := some value }
  else .ok slf

/-- The `for res in ber::iter(data)` loop of
`FCIIssuerDiscretionaryData::try_from`: ends cleanly at `Eof`, propagates other
iterator errors via `?`, and folds each (tag, value) through the match. -/
def FCIIDD.loop (slf : FCIIDD) (data : List Nat) : PRes FCIIDD :=
  match h : parse_next data with
  | .err .eof => .ok slf
  | .err e => .err e
  | .panicked => .panicked
  | .ok (rest, (tag, value)) =>
    match FCIIDD.step slf tag value with
    | .ok slf' => FCIIDD.loop slf' rest
    | .err e => .err e
    | .panicked => .panicked
termination_by data.length
decreasing_by exact parse_next_consumes data rest tag value h

/-- `FCIIssuerDiscretionaryData::try_from` of `src/emv.rs`. -/
def FCIIDD.try_from (data : List Nat) : PRes FCIIDD := FCIIDD.loop FCIIDD.default data

/-- One arm of the `match tag` in `Directory::try_from` (`src/emv.rs`): the
four known tags update fields (`0xBF0C` fail-soft to `None` on a parse error),
every other tag is logged with `warn!` and dropped. -/
def Directory.step (slf : Directory) (tag value : List Nat) : PRes Directory :=
  if tag = [0x88] then .ok { slf with ef_sfi := value.headD 0 }
  else if tag = [0x5F, 0x2D] then .ok { slf with lang_prefs := some value }
  else if tag = [0x9F, 0x11] then .ok { slf with issuer_code_table_idx := some (value.headD 0) }
  else if tag = [0xBF, 0x0C] then
    match FCIIDD.try_from value with
    | .ok v => .ok { slf with fci_issuer_discretionary_data := some v }
    | .err _ => .ok { slf with fci_issuer_discretionary_data := none }
    | .panicked => .panicked
  else .ok slf

/-- The `for res in ber::iter(data)` loop of `Directory::try_from`. -/
def Directory.loop (slf : Directory) (data : List Nat) : PRes Directory :=
  match h : parse_next data with
  | .err .eof => .ok slf
  | .err e => .err e
  | .panicked => .panicked
  | .ok (rest, (tag, value)) =>
    match Directory.step slf tag value with
    | .ok slf' => Directory.loop slf' rest
    | .err e => .err e
    | .panicked => .panicked
termination_by data.length
decreasing_by exact parse_next_consumes data rest tag value h

/-- `Directory::try_from` of `src/emv.rs` (the FCI Proprietary Template
decoder of the directory SELECT response). -/
def Directory.try_from (data : List Nat) : PRes Directory :=
  Directory.loop Directory.default data

end Cardinal.Emv

namespace Cardinal.Emv

open Cardinal.Ber

/-- One-step unfolding of the `Directory::try_from` iteration loop. -/
theorem loop_eq (slf : Directory) (data : List Nat) :
    Directory.loop slf data =
      match parse_next data with
      | .err .eof => .ok slf
      | .err e => .err e
      | .panicked => .panicked
      | .ok (rest, (tag, value)) =>
        match Directory.step slf tag value with
        | .ok slf' => Directory.loop slf' rest
        | .err e => .err e
        | .panicked => .panicked := by
  rw [Directory.loop]
  cases hp : parse_next data with
  | ok a => obtain ⟨rest, tag, value⟩ := a; rfl
  | err e => cases e <;> rfl
  | panicked => rfl

/-- A child whose tag is none of `0x88`, `0x5F2D`, `0x9F11`, `0xBF0C` leaves
the `Directory` unchanged (the source hits the `_ => warn!(..)` arm). -/
theorem step_drops_unknown (slf : Directory) (tag value : List Nat)
    (h88 : tag ≠ [0x88]) (h5f : tag ≠ [0x5F, 0x2D]) (h9f : tag ≠ [0x9F, 0x11])
    (hbf : tag ≠ [0xBF, 0x0C]) :
    Directory.step slf tag value = .ok slf := by
  simp [Directory.step, h88, h5f, h9f, hbf]

theorem loop_skips_unknown (slf : Directory) (data rest tag value : List Nat)
    (hpn : parse_next data = .ok (rest, (tag, value)))
    (h88 : tag ≠ [0x88]) (h5f : tag ≠ [0x5F, 0x2D]) (h9f : tag ≠ [0x9F, 0x11])
    (hbf : tag ≠ [0xBF, 0x0C]) :
    Directory.loop slf data = Directory.loop slf rest := by
  rw [loop_eq, hpn]
  show (match Directory.step slf tag value with
    | .ok slf' => Directory.loop slf' rest
    | .err e => .err e
    | .panicked => .panicked) = Directory.loop slf rest
  rw [step_drops_unknown slf tag value h88 h5f h9f hbf]

theorem loop_nil (slf : Directory) : Directory.loop slf [] = .ok slf := by
  rw [loop_eq]
  rfl

theorem loop_88 : Directory.loop ⟨0, none, none, none⟩ [0x88, 0x01, 0x01] =
    .ok ⟨1, none, none, none⟩ := by
  rw [loop_eq]
  exact loop_nil ⟨1, none, none, none⟩

end Cardinal.Emv

namespace Cardinal.Emv

open Cardinal.Ber

/-- C8 counterexample: the directory FCI Proprietary Template
`42 01 AA 88 01 01` contains the unknown child `(0x42, [0xAA])` (first
conjunct), yet decoding it yields exactly the same `Directory` as decoding
`88 01 01` without that child: the unknown child is dropped, and the
`Directory` struct of `src/emv.rs` has no extras map to preserve it in. -/
theorem c8_counterexample :
    parse_next [0x42, 0x01, 0xAA, 0x88, 0x01, 0x01] =
      .ok ([0x88, 0x01, 0x01], ([0x42], [0xAA])) ∧
    Directory.try_from [0x42, 0x01, 0xAA, 0x88, 0x01, 0x01] =
      .ok ⟨1, none, none, none⟩ ∧
    Directory.try_from [0x88, 0x01, 0x01] = .ok ⟨1, none, none, none⟩ := by
  refine ⟨by rfl, ?_, ?_⟩
  · show Directory.loop ⟨0, none, none, none⟩ [0x42, 0x01, 0xAA, 0x88, 0x01, 0x01] = _
    rw [loop_skips_unknown ⟨0, none, none, none⟩ _ [0x88, 0x01, 0x01] [0x42] [0xAA]
      (by rfl) (by decide) (by decide) (by decide) (by decide)]
    exact loop_88
  · exact loop_88

/-- C8 (amended): in the cited `src/emv.rs` decoder every child TLV whose tag
is not one of 0x88, 0x5F2D, 0x9F11, 0xBF0C is logged and *dropped* — the
decode step leaves the `Directory` unchanged and the loop proceeds as if the
child were absent (the struct has no extras field; the preserved extras map
exists only in the older `app`/`adapters` drafts of the directory decoder). -/
theorem c8_unknown_children_dropped (slf : Directory) (data rest tag value : List Nat)
    (hpn : parse_next data = .ok (rest, (tag, value)))
    (h88 : tag ≠ [0x88]) (h5f : tag ≠ [0x5F, 0x2D]) (h9f : tag ≠ [0x9F, 0x11])
    (hbf : tag ≠ [0xBF, 0x0C]) :
    Directory.step slf tag value = .ok slf ∧
    Directory.loop slf data = Directory.loop slf rest :=
  ⟨step_drops_unknown slf tag value h88 h5f h9f hbf,
   loop_skips_unknown slf data rest tag value hpn h88 h5f h9f hbf⟩

theorem c8_unknown_children_dropped_witness :
    Directory.step ⟨0, none, none, none⟩ [0x42] [0xAA] = .ok ⟨0, none, none, none⟩ ∧
    Directory.loop ⟨0, none, none, none⟩ [0x42, 0x01, 0xAA, 0x88, 0x01, 0x01] =
      Directory.loop ⟨0, none, none, none⟩ [0x88, 0x01, 0x01] :=
  c8_unknown_children_dropped ⟨0, none, none, none⟩
    [0x42, 0x01, 0xAA, 0x88, 0x01, 0x01] [0x88, 0x01, 0x01] [0x42] [0xAA]
    (by rfl) (by decide) (by decide) (by decide) (by decide)

end Cardinal.Emv

namespace Cardinal.Atr

/-- `TS` of `src/atr.rs` (num_enum `catch_all` ⇒ any other byte is
`Invalid(x)`). -/
inductive TS
  | Direct
  | Inverse
  | Invalid (v : Nat)
deriving DecidableEq, Repr

def TS.fromU8 (v : Nat) : TS :=
  if v = 0x3B then .Direct else if v = 0x3F then .Inverse else .Invalid v

/-- `T0`: low nibble K (count of historical bytes), high nibble the TX1
presence mask. -/
structure T0 where
  k : Nat
  tx1 : Nat
deriving DecidableEq, Repr

def T0.fromU8 (v : Nat) : T0 := ⟨v &&& 0x0F, (v &&& 0xF0) >>> 4⟩

inductive Protocol
  | T0
  | T1
  | Invalid (v : Nat)
deriving DecidableEq, Repr

def Protocol.fromU8 (v : Nat) : Protocol :=
  if v = 0 then .T0 else if v = 1 then .T1 else .Invalid v

/-- `TDn`: low nibble the protocol, high nibble the next-group mask. -/
structure TDn where
  protocol : Protocol
  txn : Nat
deriving DecidableEq, Repr

def TDn.fromU8 (v : Nat) : TDn := ⟨Protocol.fromU8 (v &&& 0x0F), (v &&& 0xF0) >>> 4⟩

/-- `TXn` (the generic Ta/Tb/Tc parameters are plain bytes everywhere the
source instantiates it). -/
structure TXn where
  ta : Option Nat
  tb : Option Nat
  tc : Option Nat
  td : Option TDn
deriving DecidableEq, Repr

/-- `nom::number::complete::be_u8`: `Eof` (modelled `none`) on empty input. -/
def beU8 (data : List Nat) : Option (List Nat × Nat) :=
  match data with
  | [] => none
  | b :: rest => some (rest, b)

/-- `nom::bytes::complete::take(n)`. -/
def atrTake (n : Nat) (data : List Nat) : Option (List Nat × List Nat) :=
  if n ≤ data.length then some (data.drop n, data.take n) else none

/-- `cond(b, be_u8)`: reads one byte only when the flag bit is set. -/
def condU8 (c : Bool) (data : List Nat) : Option (List Nat × Option Nat) :=
  if c then
    match data with
    | [] => none
    | b :: rest => some (rest, some b)
  else some (data, none)

/-- `parse_txn` of `src/atr.rs`: conditionally read TA/TB/TC/TD after the
previous TD's mask. -/
def parse_txn (data : List Nat) (lastTd : Nat) : Option (List Nat × TXn) :=
  match condU8 (lastTd &&& 1 > 0) data with
  | none => none
  | some (d1, ta) =>
    match condU8 (lastTd &&& 2 > 0) d1 with
    | none => none
    | some (d2, tb) =>
      match condU8 (lastTd &&& 4 > 0) d2 with
      | none => none
      | some (d3, tc) =>
        match condU8 (lastTd &&& 8 > 0) d3 with
        | none => none
        | some (d4, td) => some (d4, ⟨ta, tb, tc, td.map TDn.fromU8⟩)

structure HistoricalBytesStatus where
  status : Option Nat
  sw1sw2 : Option Nat
deriving DecidableEq, Repr

/-- `parse_historical_bytes_status`: dispatch on the data length (1, 2 or 3
bytes), anything else is `None` (logged). -/
def parse_historical_bytes_status (data : List Nat) : Option HistoricalBytesStatus :=
  match data with
  | [s] => some ⟨some s, none⟩
  | [s1, s2] => some ⟨none, some (s1 * 256 + s2)⟩
  | [s, s1, s2] => some ⟨some s, some (s1 * 256 + s2)⟩
  | _ => none

inductive Provider
  | PCSCWorkgroup
  | Unknown (v : List Nat)
deriving DecidableEq, Repr

inductive Standard
  | Iso14443a3
  | FeliCa
  | Unknown (v : Nat)
deriving DecidableEq, Repr

def Standard.fromU8 (v : Nat) : Standard :=
  if v = 0x03 then .Iso14443a3 else if v = 0x11 then .FeliCa else .Unknown v

inductive CardName
  | MifareClassic1K
  | MifareClassic4K
  | MifareUltralight
  | MifareMini
  | MifareUltralightC
  | MifarePlusSL12K
  | MifarePlusSL14K
  | MifarePlusSL22K
  | MifarePlusSL24K
  | TopazJewel
  | FeliCa
  | JCOP30
  | SRIX
  | Unknown (v : Nat)
deriving DecidableEq, Repr

def CardName.fromU16 (v : Nat) : CardName :=
  if v = 0x0001 then .MifareClassic1K
  else if v = 0x0002 then .MifareClassic4K
  else if v = 0x0003 then .MifareUltralight
  else if v = 0x0026 then .MifareMini
  else if v = 0x003A then .MifareUltralightC
  else if v = 0x0036 then .MifarePlusSL12K
  else if v = 0x0037 then .MifarePlusSL14K
  else if v = 0x0038 then .MifarePlusSL22K
  else if v = 0x0039 then .MifarePlusSL24K
  else if v = 0x0030 then .TopazJewel
  else if v = 0x003B then .FeliCa
  else if v = 0xFF28 then .JCOP30
  else if v = 0x0007 then .SRIX
  else .Unknown v

structure InitialAccess where
  rid : Provider
  standard : Standard
  card_name : CardName
  rfu : Nat
deriving DecidableEq, Repr

/-- `parse_initial_access`: 5-byte RID, 1-byte standard, 2-byte big-endian
card name, 4-byte big-endian RFU. -/
def parse_initial_access (data : List Nat) : Option (List Nat × InitialAccess) :=
  match atrTake 5 data with
  | none => none
  | some (d1, ridb) =>
    let rid := if ridb = [0xA0, 0x00, 0x00, 0x03, 0x06] then Provider.PCSCWorkgroup
      else Provider.Unknown ridb
    match beU8 d1 with
    | none => none
    | some (d2, stdb) =>
      match atrTake 2 d2 with
      | none => none
      | some (d3, cnb) =>
        match atrTake 4 d3 with
        | none => none
        | some (d4, rfub) =>
          some (d4, ⟨rid, Standard.fromU8 stdb,
            CardName.fromU16 (cnb.foldl (fun a b => a * 256 + b) 0),
            rfub.foldl (fun a b => a * 256 + b) 0⟩)

structure HistoricalBytesTLV where
  raw : List Nat
  service_data : Option Nat
  initial_access : Option InitialAccess
  pre_issuing_data : Option (List Nat)
  status : Option HistoricalBytesStatus
deriving DecidableEq, Repr

/-- One dispatch step of the Compact-TLV loop in `parse_historical_bytes`. -/
def hbDispatch (tlv : HistoricalBytesTLV) (tag : Nat) (value : List Nat) :
    HistoricalBytesTLV :=
  if tag = 0x30 then { tlv with service_data := value.head? }
  else if tag = 0x40 then
    { tlv with initial_access := (parse_initial_access value).map (fun r => r.2) }
  else if tag = 0x60 then { tlv with pre_issuing_data := some value }
  else if tag = 0x80 then { tlv with status := parse_historical_bytes_status value }
  else tlv

/-- The length resolution of the Compact-TLV loop: the low nibble is the
length unless it is the `0xF` escape, in which case the next byte is the real
length. -/
def hbHead (tl : Nat) (data0 : List Nat) : Option (List Nat × Nat) :=
  if tl &&& 0x0F ≠ 0xF then some (data0, tl &&& 0x0F) else beU8 data0

theorem hbHead_le (tl : Nat) (data0 data1 : List Nat) (len : Nat)
    (h : hbHead tl data0 = some (data1, len)) : data1.length ≤ data0.length := by
  unfold hbHead beU8 at h
  split at h
  · simp only [Option.some.injEq, Prod.mk.injEq] at h
    obtain ⟨h1, _⟩ := h
    subst h1
    exact Nat.le_refl _
  · match data0 with
    | [] => exact Option.noConfusion h
    | b :: rest =>
      simp only [Option.some.injEq, Prod.mk.injEq] at h
      obtain ⟨h1, _⟩ := h
      subst h1
      simp

theorem atrTake_le (n : Nat) (d d2 v : List Nat) (h : atrTake n d = some (d2, v)) :
    d2.length ≤ d.length := by
  unfold atrTake at h
  split at h
  · simp only [Option.some.injEq, Prod.mk.injEq] at h
    obtain ⟨h1, _⟩ := h
    subst h1
    simp
  · exact Option.noConfusion h

/-- The Compact-TLV `while rest.len() > 0` loop of `parse_historical_bytes`:
one byte is (tag-nibble, length-nibble), length `0xF` escapes to a following
full length byte, then `length` value bytes. -/
def hbLoop (tlv : HistoricalBytesTLV) (rest : List Nat) : Option HistoricalBytesTLV :=
  match rest with
  | [] => some tlv
  | tl :: data0 =>
    match h1 : hbHead tl data0 with
    | none => none
    | some (data1, length) =>
      match h2 : atrTake length data1 with
      | none => none
      | some (data2, value) => hbLoop (hbDispatch tlv (tl &&& 0xF0) value) data2
termination_by rest.length
decreasing_by
  have g1 := hbHead_le _ _ _ _ h1
  have g2 := atrTake_le _ _ _ _ h2
  simp only [List.length_cons]
  omega

inductive HistoricalBytes
  | Status (st : HistoricalBytesStatus)
  | TLV (tlv : HistoricalBytesTLV)
  | Unknown (tag : Nat) (rest : List Nat)
deriving DecidableEq, Repr

/-- `parse_historical_bytes` of `src/atr.rs`: dispatch on the category byte
(`0x10` status block, `0x80` Compact-TLV stream, anything else opaque). -/
def parse_historical_bytes (data : List Nat) :
    Option (List Nat × HistoricalBytes) :=
  match data with
  | [] => none
  | tag :: rest =>
    if tag = 0x10 then
      some ([], match parse_historical_bytes_status rest with
        | some st => .Status st
        | none => .Unknown 0x10 rest)
    else if tag = 0x80 then
      match hbLoop ⟨rest, none, none, none, none⟩ rest with
      | none => none
      | some tlv => some (rest, .TLV tlv)
    else some ([], .Unknown tag rest)

structure ATR where
  ts : TS
  t0 : T0
  tx1 : TXn
  tx2 : TXn
  tx3 : TXn
  historical_bytes : Option HistoricalBytes
  tck : Nat
deriving DecidableEq, Repr

/-- The three ways `atr::parse` can end: a parsed `ATR`, a returned parse
error (all the nom `?`s), or the `assert!` panic. -/
inductive AtrOutcome
  | ok (atr : ATR)
  | parseError
  | panicked
deriving DecidableEq, Repr

/-- `atr::parse` of `src/atr.rs`.  The faithful detail for claim C6: after
group 3 the source runs `assert!(tx3.td.map(|v| v.txn).unwrap_or_default() ==
0x00)` — a fourth-group request does not return an error, it panics. -/
def parse (data : List Nat) : AtrOutcome :=
  match data with
  | [] => .parseError
  | tsb :: d1 =>
    match d1 with
    | [] => .parseError
    | t0b :: d2 =>
      match parse_txn d2 (T0.fromU8 t0b).tx1 with
      | none => .parseError
      | some (d3, tx1) =>
        match parse_txn d3 ((tx1.td.map TDn.txn).getD 0) with
        | none => .parseError
        | some (d4, tx2) =>
          match parse_txn d4 ((tx2.td.map TDn.txn).getD 0) with
          | none => .parseError
          | some (d5, tx3) =>
            if (tx3.td.map TDn.txn).getD 0 ≠ 0x00 then .panicked
            else if (T0.fromU8 t0b).k > 0 then
              match atrTake (T0.fromU8 t0b).k d5 with
              | none => .parseError
              | some (d6, rawhb) =>
                match parse_historical_bytes rawhb with
                | none => .parseError
                | some (_, hb) =>
                  match d6 with
                  | [] => .parseError
                  | tck :: _ =>
                    .ok ⟨TS.fromU8 tsb, T0.fromU8 t0b, tx1, tx2, tx3, some hb, tck⟩
            else
              match d5 with
              | [] => .parseError
              | tck :: _ =>
                .ok ⟨TS.fromU8 tsb, T0.fromU8 t0b, tx1, tx2, tx3, none, tck⟩

end Cardinal.Atr

namespace Cardinal.Atr

theorem hbLoop_nil (tlv : HistoricalBytesTLV) : hbLoop tlv [] = some tlv := by
  rw [hbLoop.eq_def]

/-- One-step unfolding of the Compact-TLV loop on a non-empty input. -/
theorem hbLoop_cons (tlv : HistoricalBytesTLV) (tl : Nat) (data0 : List Nat) :
    hbLoop tlv (tl :: data0) =
      match hbHead tl data0 with
      | none => none
      | some (data1, length) =>
        match atrTake length data1 with
        | none => none
        | some (data2, value) => hbLoop (hbDispatch tlv (tl &&& 0xF0) value) data2 := by
  rw [hbLoop.eq_def]
  split
  · rename_i heq
    exact absurd heq (by simp)
  · rename_i tl' data0' heq
    injection heq with e1 e2
    subst e1
    subst e2
    cases hH : hbHead tl data0 with
    | none =>
      split
      · rfl
      · rename_i data1 len heq1
        exact Option.noConfusion heq1
    | some a =>
      obtain ⟨d1, len⟩ := a
      split
      · rename_i heq1
        exact Option.noConfusion heq1
      · rename_i data1 len1 heq1
        injection heq1 with hpair
        injection hpair with hd hl
        subst hd
        subst hl
        cases hA : atrTake len d1 with
        | none =>
          split
          · simp [hA]
          · rename_i d2 v heq2
            exact Option.noConfusion heq2
        | some b =>
          obtain ⟨d2, v⟩ := b
          split
          · rename_i heq2
            exact Option.noConfusion heq2
          · rename_i d2' v' heq2
            injection heq2 with hpair2
            injection hpair2 with h2a h2b
            subst h2a
            subst h2b
            simp [hA]

end Cardinal.Atr

namespace Cardinal.Atr

/-- Model validation: the Compact-TLV loop on the historical bytes of the
2018 Curve card ATR reproduces the expected struct of the source's
`test_parse_curve`. -/
theorem hbLoop_curve_historical_bytes :
    hbLoop ⟨[0x31, 0x80, 0x66, 0xB1, 0x84, 0x0C, 0x01, 0x6E, 0x01, 0x83, 0x00,
      0x90, 0x00], none, none, none, none⟩
    [0x31, 0x80, 0x66, 0xB1, 0x84, 0x0C, 0x01, 0x6E, 0x01, 0x83, 0x00, 0x90, 0x00] =
    some ⟨[0x31, 0x80, 0x66, 0xB1, 0x84, 0x0C, 0x01, 0x6E, 0x01, 0x83, 0x00, 0x90, 0x00],
      some 0x80, none, some [0xB1, 0x84, 0x0C, 0x01, 0x6E, 0x01],
      some ⟨some 0x00, some 0x9000⟩⟩ := by
  have e1 : (0x31 : Nat) &&& 0x0F = 1 := by decide
  have e2 : (0x31 : Nat) &&& 0xF0 = 0x30 := by decide
  have e3 : (0x66 : Nat) &&& 0x0F = 6 := by decide
  have e4 : (0x66 : Nat) &&& 0xF0 = 0x60 := by decide
  have e5 : (0x83 : Nat) &&& 0x0F = 3 := by decide
  have e6 : (0x83 : Nat) &&& 0xF0 = 0x80 := by decide
  simp [hbLoop_cons, hbLoop_nil, hbHead, beU8, atrTake, hbDispatch,
    parse_historical_bytes_status, e1, e2, e3, e4, e5, e6]

end Cardinal.Atr

namespace Cardinal.Atr

/-- C6 counterexample: on the ATR `3B 80 80 80 10` — whose TD3 (`0x10`)
requests a fourth group — `parse` hits the `assert!` and panics; a panic is
not a returned parse error, so the surrounding probe flow cannot log it and
continue. -/
theorem c6_counterexample :
    parse [0x3B, 0x80, 0x80, 0x80, 0x10] = .panicked ∧
    AtrOutcome.panicked ≠ AtrOutcome.parseError := by
  refine ⟨by rfl, by decide⟩

/-- C6 (amended): for every ATR input whose first three interface-byte groups
parse successfully and whose TD3 carries a non-zero next-group mask (a TX4
request), `parse` aborts with the `assert!` panic instead of returning a
catchable parse error. -/
theorem c6_td3_tx4_panics (tsb t0b : Nat) (d2 d3 d4 d5 : List Nat)
    (tx1 tx2 tx3 : TXn)
    (h1 : parse_txn d2 (T0.fromU8 t0b).tx1 = some (d3, tx1))
    (h2 : parse_txn d3 ((tx1.td.map TDn.txn).getD 0) = some (d4, tx2))
    (h3 : parse_txn d4 ((tx2.td.map TDn.txn).getD 0) = some (d5, tx3))
    (h4 : (tx3.td.map TDn.txn).getD 0 ≠ 0x00) :
    parse (tsb :: t0b :: d2) = .panicked := by
  simp only [parse, h1, h2, h3, if_pos h4]

theorem c6_td3_tx4_panics_witness :
    parse (0x3B :: 0x80 :: [0x80, 0x80, 0x10]) = .panicked :=
  c6_td3_tx4_panics 0x3B 0x80 [0x80, 0x80, 0x10] [0x80, 0x10] [0x10] []
    ⟨none, none, none, some ⟨.T0, 8⟩⟩ ⟨none, none, none, some ⟨.T0, 8⟩⟩
    ⟨none, none, none, some ⟨.T0, 1⟩⟩
    (by rfl) (by rfl) (by rfl) (by decide)

end Cardinal.Atr

namespace Cardinal.Felica

/-- `u64::to_be_bytes`. -/
def toBeBytes8 (v : Nat) : List Nat :=
  [v / 2 ^ 56 % 256, v / 2 ^ 48 % 256, v / 2 ^ 40 % 256, v / 2 ^ 32 % 256,
   v / 2 ^ 24 % 256, v / 2 ^ 16 % 256, v / 2 ^ 8 % 256, v % 256]

/-- `u64::from_be_bytes`. -/
def fromBeBytes8 (bytes : List Nat) : Nat :=
  bytes.foldl (fun acc b => acc * 256 + b) 0

/-- Outcome of `idm_for_service`: a value, or the `assert!` panic. -/
inductive U64Outcome
  | ok (v : Nat)
  | panicked
deriving DecidableEq, Repr

/-- `felica::idm_for_service` of `src/felica.rs`: overwrite the top nibble of
the big-endian IDm bytes with `n`.  Faithful detail for claim C9: the guard is
`assert!(n < 0b0000_1111)` — strictly less than 15 — so the legal system
number 15 panics. -/
def idm_for_service (idm0 n : Nat) : U64Outcome :=
  if n < 0b00001111 then
    let idm_bytes := toBeBytes8 idm0
    let b0 := idm_bytes.headD 0 &&& 0b00001111 ||| n <<< 4
    .ok (fromBeBytes8 (b0 :: idm_bytes.tail))
  else .panicked

theorem or_nibble (x n : Nat) (hx : x < 16) : x ||| n <<< 4 = 2 ^ 4 * n + x := by
  apply Nat.eq_of_testBit_eq
  intro j
  rw [Nat.testBit_or, Nat.testBit_shiftLeft, Nat.testBit_mul_pow_two_add n hx j]
  by_cases hj : j < 4
  · simp [hj, Nat.not_le.mpr hj]
  · have h16 : (16 : Nat) ≤ 2 ^ j := by
      calc (16 : Nat) = 2 ^ 4 := by norm_num
        _ ≤ 2 ^ j := Nat.pow_le_pow_right (by norm_num) (by omega)
    have hxj : x.testBit j = false := Nat.testBit_lt_two_pow (lt_of_lt_of_le hx h16)
    simp [hj, hxj, Nat.not_lt.mp hj]

theorem and_nibble (x : Nat) : x &&& 15 = x % 16 := by
  have h := Nat.and_pow_two_sub_one_eq_mod x 4
  norm_num at h
  exact h

/-- C9: for system numbers 0..=14 the function returns the IDm with its top
nibble (bits 60..63) replaced by `n` and the low 60 bits unchanged — but for
the legal system number 15 the off-by-one `assert!(n < 0b0000_1111)` panics. -/
theorem c9_idm_for_service (idm0 n : Nat) (hn : n < 15) (hidm : idm0 < 2 ^ 64) :
    idm_for_service idm0 n = .ok (idm0 % 2 ^ 60 + n * 2 ^ 60) ∧
    idm_for_service idm0 15 = .panicked := by
  constructor
  · simp only [idm_for_service, if_pos hn, toBeBytes8, fromBeBytes8]
    simp only [List.headD_cons, List.tail_cons, List.foldl_cons, List.foldl_nil]
    rw [and_nibble, or_nibble _ n (Nat.mod_lt _ (by norm_num))]
    congr 1
    omega
  · simp [idm_for_service]

theorem c9_idm_for_service_witness :
    idm_for_service 0x01010A108E1BAD39 5 = .ok (0x01010A108E1BAD39 % 2 ^ 60 + 5 * 2 ^ 60) ∧
    idm_for_service 0x01010A108E1BAD39 15 = .panicked :=
  c9_idm_for_service 0x01010A108E1BAD39 5 (by decide) (by norm_num)

end Cardinal.Felica
